import Mathlib

/-!
Verification of the GitHub CLI tool (`src/adi/main.py`): the commit-message
generation cascade, the Descope/GitHub authentication flow, and the
commit-and-push routine, shallowly embedded in Lean.

Python string primitives are modelled over `List Char` so that every
definition reduces by kernel computation.
-/

namespace Adi

/-! ## Python string primitives -/

/-- Python `pre_.isprefix`-style check: `startsAux p s` is true iff `p` is a
prefix of `s` (character lists). -/
def startsAux : List Char → List Char → Bool
  | [], _ => true
  | _ :: _, [] => false
  | a :: as, b :: bs => a == b && startsAux as bs

/-- Python `s.startswith(pre)`. -/
def pyStartsWith (pre s : String) : Bool := startsAux pre.data s.data

/-- Helper for Python `pat in s` (substring containment). -/
def containsAux (pat : List Char) : List Char → Bool
  | [] => startsAux pat []
  | x :: xs => startsAux pat (x :: xs) || containsAux pat xs

/-- Python `pat in s` (substring containment). -/
def pyIn (pat s : String) : Bool := containsAux pat.data s.data

/-- Python `s.lower()` (ASCII case folding, as used by the source). -/
def pyLower (s : String) : String := String.mk (s.data.map Char.toLower)

/-- Python `s[:n]` slicing from the start. -/
def pySlice (n : Nat) (s : String) : String := String.mk (s.data.take n)

/-- Python `s.strip()`. -/
def pyStrip (s : String) : String :=
  String.mk (((s.data.dropWhile Char.isWhitespace).reverse.dropWhile Char.isWhitespace).reverse)

/-- Python `s.strip(chars)`: strip the given characters from both ends. -/
def pyStripChars (cs : List Char) (s : String) : String :=
  String.mk (((s.data.dropWhile (cs.contains ·)).reverse.dropWhile (cs.contains ·)).reverse)

/-- The characters stripped by the source's `strip('"\'')` calls. -/
def quoteChars : List Char := ['"', Char.ofNat 39]

/-- Helper for Python `s.split(c)`. -/
def splitCharAux (c : Char) : List Char → List Char → List String
  | [], acc => [String.mk acc.reverse]
  | x :: xs, acc =>
    if x == c then String.mk acc.reverse :: splitCharAux c xs []
    else splitCharAux c xs (x :: acc)

/-- Python `s.split(c)` for a one-character separator. -/
def pySplitChar (c : Char) (s : String) : List String := splitCharAux c s.data []

/-- Python `s.split('\n')`. -/
def pySplitNl (s : String) : List String := pySplitChar '\n' s

/-- Fuel-driven helper for Python `s.replace(pat, '')` (delete occurrences);
the fuel is an upper bound on the number of characters still to scan. -/
def replDelAux (pat : List Char) : Nat → List Char → List Char
  | _, [] => []
  | 0, l => l
  | fuel + 1, x :: xs =>
    if startsAux pat (x :: xs) then replDelAux pat fuel ((x :: xs).drop pat.length)
    else x :: replDelAux pat fuel xs

/-- Python `s.replace(pat, '')`: delete all (non-overlapping, left-to-right)
occurrences of `pat` in `s`. -/
def pyReplaceDel (pat s : String) : String :=
  if pat = "" then s else String.mk (replDelAux pat.data s.data.length s.data)

/-- Python `s.split(':')[0]`. -/
def pyHeadColon (s : String) : String := (pySplitChar ':' s).headD ""

/-! ## Commit-message generation: the pure pieces

Direct translations of `try_simple_text_generation`, `extract_commit_message`,
`generate_fallback_message` and the response-postprocessing part of
`generate_with_ollama` from `src/adi/main.py`. -/

/-- The conventional-commit types used throughout `main.py`. -/
def commitTypes : List String := ["feat", "fix", "docs", "style", "refactor", "test", "chore"]

/-- `main.py:457-482` `try_simple_text_generation`: keyword patterns over the
lower-cased prompt; always returns a message. -/
def try_simple_text_generation (prompt : String) : Option String :=
  let diff_lower := pyLower prompt
  if pyIn "+def " diff_lower || pyIn "+class " diff_lower then
    some "feat: add new functionality"
  else if pyIn "requirements" diff_lower || pyIn "package" diff_lower then
    some "chore: update dependencies"
  else if pyIn "+import" diff_lower then
    some "feat: add new imports and functionality"
  else if pyIn "fix" diff_lower || pyIn "bug" diff_lower then
    some "fix: resolve issues"
  else if pyIn "test" diff_lower then
    some "test: add or update tests"
  else if pyIn ".md" diff_lower then
    some "docs: update documentation"
  else
    some "chore: update code"

/-- First scanning pass of `extract_commit_message` (`main.py:492-503`): a
non-blank line with a conventional type prefix, or any sub-80-char line with a
colon not starting with `http`. -/
def emPassOne : List String → Option String
  | [] => none
  | l :: ls =>
    let line := pyStrip l
    if line = "" then emPassOne ls
    else if commitTypes.any (fun t => pyStartsWith (t ++ ":") (pyLower line)) then
      some (pySlice 72 line)
    else if pyIn ":" line && line.length < 80 && !pyStartsWith "http" line then
      some (pySlice 72 line)
    else emPassOne ls

/-- Second scanning pass of `extract_commit_message` (`main.py:506-512`): a
line of length in (10, 100) not starting with `Generate`, prefixed with
`feat: ` and lower-cased unless it already starts with a type keyword. -/
def emPassTwo : List String → Option String
  | [] => none
  | l :: ls =>
    let line := pyStrip l
    if line.length > 10 && line.length < 100 && !pyStartsWith "Generate" line then
      if !(commitTypes.any (fun t => pyStartsWith t (pyLower line))) then
        some (pySlice 72 ("feat: " ++ pyLower line))
      else some (pySlice 72 line)
    else emPassTwo ls

/-- `main.py:484-517` `extract_commit_message`: remove the (truncated) prompt
from the generated text, then apply the two scanning passes. -/
def extract_commit_message (generated_text git_diff : String) : Option String :=
  let text := pyStrip (pyReplaceDel (pySlice 500 git_diff) generated_text)
  let lines := pySplitNl text
  match emPassOne lines with
  | some r => some r
  | none => emPassTwo lines

/-- The per-line signal classification of `generate_fallback_message`
(`main.py:532-544`); `line` is already lower-cased, while the `docs`/`chore`
branches inspect the whole diff. -/
def lineSignal (git_diff : String) (line : String) : Option String :=
  if (pyIn "def " line || pyIn "class " line) && pyStartsWith "+" line then some "feat"
  else if pyIn "fix" line || pyIn "bug" line then some "fix"
  else if pyIn "import" line && pyStartsWith "+" line then some "feat"
  else if pyIn "test" line then some "test"
  else if pyIn ".md" git_diff || pyIn "readme" (pyLower git_diff) then some "docs"
  else if pyIn "requirements" (pyLower git_diff) || pyIn "package" (pyLower git_diff) then
    some "chore"
  else none

/-- The primary change type chosen by `generate_fallback_message`
(`main.py:546-558`): priority feat > fix > test > docs > chore, default chore. -/
def fallbackCommitType (git_diff : String) : String :=
  let diff_lines := pySplitNl (pyLower git_diff)
  let signals := diff_lines.filterMap (lineSignal git_diff)
  if signals.contains "feat" then "feat"
  else if signals.contains "fix" then "fix"
  else if signals.contains "test" then "test"
  else if signals.contains "docs" then "docs"
  else if signals.contains "chore" then "chore"
  else "chore"

/-- `main.py:519-577` `generate_fallback_message`: deterministic statistical
fallback, a total function of the diff. -/
def generate_fallback_message (git_diff : String) : String :=
  let diff_lines := pySplitNl (pyLower git_diff)
  let added_lines :=
    (diff_lines.filter (fun l => pyStartsWith "+" l && !pyStartsWith "+++" l)).length
  let removed_lines :=
    (diff_lines.filter (fun l => pyStartsWith "-" l && !pyStartsWith "---" l)).length
  let commit_type := fallbackCommitType git_diff
  if pyIn "huggingface" (pyLower git_diff) || pyIn "hf" (pyLower git_diff) then
    "feat: add Hugging Face integration for auto-commit messages"
  else if pyIn "openai" (pyLower git_diff) then
    "feat: add AI-powered commit message generation"
  else if pyIn "requirements" (pyLower git_diff) then
    "chore: update dependencies"
  else if pyIn "main.py" git_diff && added_lines > 50 then
    "feat: implement major functionality updates"
  else if added_lines > removed_lines * 2 then
    commit_type ++ ": add new features and functionality"
  else if removed_lines > added_lines * 2 then
    commit_type ++ ": remove deprecated code"
  else
    commit_type ++ ": update and improve codebase"

/-- Line scan of the Ollama response postprocessing (`main.py:393-406`). -/
def ollamaLineScan : List String → Option String
  | [] => none
  | l :: ls =>
    let line := pyStrip l
    if line ≠ "" && !pyStartsWith "Commit message:" line then
      let line := pyStripChars quoteChars line
      if pyIn ":" line && line.length ≤ 72 then some line
      else if line.length ≤ 50 then
        if !(commitTypes.any (fun t => pyStartsWith (t ++ ":") (pyLower line))) then
          some ("feat: " ++ pyLower line)
        else some line
      else ollamaLineScan ls
    else ollamaLineScan ls

/-- Postprocessing of a non-empty stripped Ollama response
(`main.py:391-413`): line scan, then the first-line fallback. -/
def ollamaExtract (generated_text : String) : Option String :=
  let lines := pySplitNl generated_text
  match ollamaLineScan lines with
  | some r => some r
  | none =>
    let first_line := pyStripChars quoteChars (pyStrip (lines.headD ""))
    if first_line.length ≤ 50 then some first_line else none

/-- Prompt wrapper built by `generate_with_huggingface` (`main.py:182`). -/
def mkPrompt (git_diff : String) : String :=
  "Git commit message for:\n" ++ pySlice 800 git_diff ++ "\n\nMessage:"

/-- Prompt wrapper built by `try_huggingface_serverless` (`main.py:257`). -/
def mkSimplePrompt (prompt : String) : String :=
  "Commit message:\n" ++ pySlice 500 prompt ++ "\n\nGenerate a git commit message:"

/-! ## The generation cascade with its external collaborators

Network calls are modelled by an environment `GenEnv`; every outbound HTTP
request is recorded as a `GenEv` event so that ordering and retry behaviour
are observable. -/

/-- Outcome of one Hugging Face serverless request (`main.py:260-315`). -/
inductive HFResp where
  | ok (generated : String)
  | okNoText
  | status503
  | status401
  | status429
  | otherStatus
  | timeout
  | exc

/-- Observable outbound calls of the commit-message cascade. -/
inductive GenEv where
  | hfQuery (model : String)
  | hfWait (secs : Nat)
  | ollamaTags
  | ollamaGen (model : String)
  | openaiCall
deriving DecidableEq

/-- Environment of the cascade: the behaviour of the network collaborators
and interactive inputs, fixed for one invocation. -/
structure GenEnv where
  /-- Result of `test_connectivity` (`main.py:217-232`; returns `true` when
  fully offline, by the deliberate fallthrough at line 232). -/
  connectivityOk : Bool
  /-- The HF API token after env lookup / interactive prompt (`main.py:184-189`). -/
  hfToken : Option String
  /-- Response of the single request sent to each HF model. -/
  hfResp : String → HFResp
  /-- Whether `GET /api/tags` answers 200 (`check_ollama_running`). -/
  ollamaRunning : Bool
  /-- Model list from `get_available_models`. -/
  ollamaModels : List String
  /-- `config.get('preferred_model', 'llama3.2:1b')`. -/
  preferredModel : String
  /-- `POST /api/generate` result: `some raw` on HTTP 200 with response text
  `raw`, `none` on any failure. -/
  ollamaGenResp : Option String
  /-- Whether an OpenAI client is available (`openai_client or setup_openai_client()`). -/
  openaiReady : Bool
  /-- Content of the OpenAI chat completion, `none` on failure / no choices. -/
  openaiResp : Option String

/-- The fixed model list of `try_huggingface_serverless` (`main.py:243-247`). -/
def hfModels : List String := ["microsoft/DialoGPT-small", "gpt2", "distilgpt2"]

/-- Python truthiness of an optional string (`if result:`). -/
def truthyStr : Option String → Bool
  | some s => s ≠ ""
  | none => false

/-- The per-model loop of `try_huggingface_serverless` (`main.py:249-317`):
one request per model; 200 feeds `extract_commit_message`; 503 sleeps 5
seconds and moves to the next model; 401/429/other statuses, timeouts and
exceptions move on directly. -/
def hfLoop (env : GenEnv) (sp : String) : List String → Option String × List GenEv
  | [] => (none, [])
  | m :: ms =>
    match env.hfResp m with
    | .ok g =>
      match extract_commit_message g sp with
      | some msg =>
        if msg = "" then
          let r := hfLoop env sp ms
          (r.1, .hfQuery m :: r.2)
        else (some msg, [.hfQuery m])
      | none =>
        let r := hfLoop env sp ms
        (r.1, .hfQuery m :: r.2)
    | .okNoText =>
      let r := hfLoop env sp ms
      (r.1, .hfQuery m :: r.2)
    | .status503 =>
      let r := hfLoop env sp ms
      (r.1, .hfQuery m :: .hfWait 5 :: r.2)
    | .status401 =>
      let r := hfLoop env sp ms
      (r.1, .hfQuery m :: r.2)
    | .status429 =>
      let r := hfLoop env sp ms
      (r.1, .hfQuery m :: r.2)
    | .otherStatus =>
      let r := hfLoop env sp ms
      (r.1, .hfQuery m :: r.2)
    | .timeout =>
      let r := hfLoop env sp ms
      (r.1, .hfQuery m :: r.2)
    | .exc =>
      let r := hfLoop env sp ms
      (r.1, .hfQuery m :: r.2)

/-- `main.py:234-317` `try_huggingface_serverless`: skipped entirely without a
token, otherwise the per-model loop on the simplified prompt. -/
def try_huggingface_serverless (env : GenEnv) (prompt : String) :
    Option String × List GenEv :=
  match env.hfToken with
  | none => (none, [])
  | some _ => hfLoop env (mkSimplePrompt prompt) hfModels

/-- The generate request plus postprocessing of `generate_with_ollama`
(`main.py:371-413`), after a model has been chosen. -/
def ollamaGenerate (env : GenEnv) (model : String) : Option String × List GenEv :=
  match env.ollamaGenResp with
  | none => (none, [.ollamaTags, .ollamaTags, .ollamaGen model])
  | some raw =>
    let g := pyStrip raw
    if g = "" then (none, [.ollamaTags, .ollamaTags, .ollamaGen model])
    else (ollamaExtract g, [.ollamaTags, .ollamaTags, .ollamaGen model])

/-- `main.py:338-417` `generate_with_ollama`: availability check
(`GET /api/tags` twice), preferred-model matching against the available list
(`main.py:345-356`), then one generate request with postprocessing. -/
def generate_with_ollama (env : GenEnv) (git_diff : String) :
    Option String × List GenEv :=
  if !env.ollamaRunning then (none, [.ollamaTags])
  else
    let model := env.preferredModel
    let available := env.ollamaModels
    if available.any (fun m => pyStartsWith (pyHeadColon m) model) then
      ollamaGenerate env model
    else
      match available with
      | m0 :: _ => ollamaGenerate env m0
      | [] => (none, [.ollamaTags, .ollamaTags])

/-- The OpenAI attempt inside `try_alternative_apis` (`main.py:431-453`):
strip, quote-strip and truncate the completion content to 72 characters. -/
def openaiAttempt (env : GenEnv) : Option String × List GenEv :=
  if env.openaiReady then
    match env.openaiResp with
    | some content =>
      let c := pyStrip content
      if c = "" then (none, [.openaiCall])
      else (some (pySlice 72 (pyStripChars quoteChars c)), [.openaiCall])
    | none => (none, [.openaiCall])
  else (none, [])

/-- `main.py:419-455` `try_alternative_apis`: local Ollama first, then the
OpenAI API; each failure (falsy result or exception) moves on. -/
def try_alternative_apis (env : GenEnv) (prompt : String) :
    Option String × List GenEv :=
  let o := generate_with_ollama env prompt
  if truthyStr o.1 then o
  else
    let a := openaiAttempt env
    (a.1, o.2 ++ a.2)

/-- `main.py:170-215` `generate_with_huggingface`: connectivity gate, prompt
construction, then the strategy list `[try_huggingface_serverless,
try_alternative_apis, try_simple_text_generation]` with catch-and-continue. -/
def generate_with_huggingface (env : GenEnv) (git_diff : String) :
    Option String × List GenEv :=
  if !env.connectivityOk then (none, [])
  else
    let prompt := mkPrompt git_diff
    let s1 := try_huggingface_serverless env prompt
    if truthyStr s1.1 then s1
    else
      let s2 := try_alternative_apis env prompt
      if truthyStr s2.1 then (s2.1, s1.2 ++ s2.2)
      else
        let s3 := try_simple_text_generation prompt
        if truthyStr s3 then (s3, s1.2 ++ s2.2)
        else (none, s1.2 ++ s2.2)

/-- `main.py:157-168` `generate_commit_message`: the Hugging Face wrapper,
falling back to `generate_fallback_message` when it yields nothing truthy. -/
def generate_commit_message (env : GenEnv) (git_diff : String) :
    String × List GenEv :=
  match generate_with_huggingface env git_diff with
  | (some msg, t) =>
    if msg = "" then (generate_fallback_message git_diff, t) else (msg, t)
  | (none, t) => (generate_fallback_message git_diff, t)

/-- All remote/local model strategies unreachable: every HF request fails at
the network level, Ollama's tags endpoint is down, and no OpenAI completion
can be obtained. `test_connectivity` returns `true` in this situation
(`main.py:232`). -/
def offlineGen (env : GenEnv) : Prop :=
  env.connectivityOk = true ∧
  (∀ m, env.hfResp m = HFResp.timeout ∨ env.hfResp m = HFResp.exc) ∧
  env.ollamaRunning = false ∧
  (env.openaiReady = false ∨ env.openaiResp = none)

/-- The CommitMessage schema of the spec (§3): `^(feat|fix|docs|style|
refactor|test|chore): .+$` and length at most 72. -/
def matchesConventional (s : String) : Bool :=
  (commitTypes.any (fun t => pyStartsWith (t ++ ": ") s && s.length > t.length + 2)) &&
    !pyIn "\n" s && s.length ≤ 72

/-! ## Identity-provider session data and token extraction

`extract_github_token_from_session` inspects provider-defined nested data
defensively; the data is modelled by a small dynamic value type. -/

/-- Provider-defined dynamic values: strings and string-keyed dictionaries. -/
inductive DVal where
  | str (s : String)
  | dict (entries : List (String × DVal))

/-- Python truthiness of a dynamic value. -/
def DVal.truthy : DVal → Bool
  | .str s => s ≠ ""
  | .dict d => !d.isEmpty

/-- Python dict membership/indexing over insertion-ordered entries. -/
def dlookup (k : String) : List (String × DVal) → Option DVal
  | [] => none
  | (k', v) :: rest => if k' = k then some v else dlookup k rest

/-- Python truthiness of the running `github_token` variable. -/
def optTruthy : Option DVal → Bool
  | some v => v.truthy
  | none => false

/-- The user object of a verification response: `custom_attributes` and
`oauth`; an absent or falsy attribute is the empty list. -/
structure UserInfo where
  custom_attributes : List (String × DVal)
  oauth : List (String × DVal)

/-- The full verification response: optional `session_jwt`, `oauth_tokens`
and nested `user`. -/
structure FullResponse where
  session_jwt : Option String
  oauth_tokens : List (String × DVal)
  user : Option UserInfo

/-- Custom-attribute inspection (`main.py:704-712`). The outer `none` marks
the raised exception when `custom_attrs['oauth_tokens']['github']` is not a
dict and `.get` is called on it; the inner option is the token found. -/
def customAttrToken (ui : UserInfo) : Option (Option DVal) :=
  if ui.custom_attributes.isEmpty then some none
  else
    match dlookup "github_token" ui.custom_attributes with
    | some v => some (some v)
    | none =>
      match dlookup "oauth_tokens" ui.custom_attributes with
      | some (.dict ot) =>
        match dlookup "github" ot with
        | some (.dict g) => some (dlookup "access_token" g)
        | some (.str _) => none
        | none => some none
      | some (.str _) => some none
      | none => some none

/-- The OAuth-provider loop (`main.py:715-718` and `main.py:731-734`): every
entry whose name lower-cases to `github` and is a dict with an
`access_token` key overwrites the token accumulated so far. -/
def oauthScan (entries : List (String × DVal)) (acc : Option DVal) : Option DVal :=
  entries.foldl
    (fun acc e =>
      if pyLower e.1 = "github" then
        match e.2 with
        | .dict d =>
          match dlookup "access_token" d with
          | some v => some v
          | none => acc
        | .str _ => acc
      else acc)
    acc

/-- The `full_response` inspection (`main.py:719-734`), entered only when the
token found so far is falsy. -/
def fullResponseScan (fr : FullResponse) (tok : Option DVal) : Option DVal :=
  if !optTruthy tok then
    let tok2 :=
      if !fr.oauth_tokens.isEmpty then
        match dlookup "github" fr.oauth_tokens with
        | some (.dict g) =>
          match dlookup "access_token" g with
          | some v => some v
          | none => tok
        | _ => tok
      else tok
    if !optTruthy tok2 then
      match fr.user with
      | some u => if !u.oauth.isEmpty then oauthScan u.oauth tok2 else tok2
      | none => tok2
    else tok2
  else tok

/-- `main.py:697-745` `extract_github_token_from_session`: custom attributes,
then the user's OAuth map (overwriting), then the full response, with a final
truthiness gate; any exception yields `none`. -/
def extract_github_token_from_session (full_response : Option FullResponse)
    (user_info : Option UserInfo) : Option DVal :=
  let step1 : Option (Option DVal) :=
    match user_info with
    | none => some none
    | some ui =>
      match customAttrToken ui with
      | none => none
      | some t1 => some (if !ui.oauth.isEmpty then oauthScan ui.oauth t1 else t1)
  match step1 with
  | none => none
  | some tok =>
    let tok :=
      match full_response with
      | some fr => fullResponseScan fr tok
      | none => tok
    if optTruthy tok then tok else none

/-! ## The authentication state machine -/

/-- Observable external calls during authentication. -/
inductive AuthEv where
  | magicSend
  | otpSend
  | otpVerify
  | ghUser (token : String)
deriving DecidableEq

/-- Calls that go to the identity provider (Descope). -/
def isIdentityProviderCall : AuthEv → Bool
  | .magicSend => true
  | .otpSend => true
  | .otpVerify => true
  | .ghUser _ => false

/-- In-memory configuration plus the persisted copy written by
`save_config`. -/
structure AuthSt where
  config : List (String × String)
  persisted : List (String × String)

/-- Python dict lookup on the flat string config. -/
def lookupKV (k : String) : List (String × String) → Option String
  | [] => none
  | (k', v) :: rest => if k' = k then some v else lookupKV k rest

/-- Python dict assignment on the flat string config (replace in place or
append, preserving insertion order). -/
def setKV (k v : String) : List (String × String) → List (String × String)
  | [] => [(k, v)]
  | (k', v') :: rest =>
    if k' = k then (k, v) :: rest else (k', v') :: setKV k v rest

/-- Environment of the authentication flow: persisted config, collaborator
behaviour and interactive inputs. -/
structure AuthEnv where
  /-- Whether `init_descope_client` succeeded (`main.py:71-81`); on failure
  `descope_client` is left `None`. -/
  descopeInit : Bool
  /-- Config loaded by `load_config`. -/
  config : List (String × String)
  /-- Whether `Github(token).get_user()` succeeds for a token. -/
  ghValid : String → Bool
  /-- The login reported by `get_user()` for a valid token. -/
  ghLogin : String → String
  /-- `input()` for the email prompt. -/
  emailInput : String
  /-- `input()` for the method choice. -/
  choiceInput : String
  /-- Whether `magiclink.sign_in` succeeds. -/
  magicSendOk : Bool
  /-- Session token pasted back after the magic link. -/
  magicTokenInput : String
  /-- Whether `otp.sign_in` succeeds. -/
  otpSendOk : Bool
  /-- OTP code typed by the user. -/
  otpCodeInput : String
  /-- Whether `otp.verify_code` succeeds. -/
  otpVerifyOk : Bool
  /-- The verification response on success. -/
  otpVerifyResp : FullResponse
  /-- `getpass()` input for the manual GitHub token. -/
  manualTokenInput : String

/-- Manual token entry part of `setup_github_connection` (`main.py:791-814`):
prompt, validate, persist `github_token` and `github_username`. -/
def manualGithubEntry (env : AuthEnv) (st : AuthSt) (tr : List AuthEv) :
    Bool × AuthSt × List AuthEv :=
  let tok := pyStrip env.manualTokenInput
  if tok = "" then (false, st, tr)
  else if env.ghValid tok then
    let cfg := setKV "github_username" (env.ghLogin tok) (setKV "github_token" tok st.config)
    (true, { config := cfg, persisted := cfg }, tr ++ [.ghUser tok])
  else (false, st, tr ++ [.ghUser tok])

/-- `main.py:781-814` `setup_github_connection`: try the persisted token
first (no config write on success), falling through to manual entry when it
is missing or rejected. -/
def setup_github_connection (env : AuthEnv) (st : AuthSt) :
    Bool × AuthSt × List AuthEv :=
  match lookupKV "github_token" st.config, lookupKV "github_username" st.config with
  | some tok, some _ =>
    if env.ghValid tok then (true, st, [.ghUser tok])
    else manualGithubEntry env st [.ghUser tok]
  | _, _ => manualGithubEntry env st []

/-- `main.py:747-765` `setup_github_with_token`: validate an extracted token,
persisting it on success; a `GithubException` falls back to manual entry. -/
def setup_github_with_token (env : AuthEnv) (tok : String) (st : AuthSt) :
    Bool × AuthSt × List AuthEv :=
  if env.ghValid tok then
    let cfg := setKV "github_username" (env.ghLogin tok) (setKV "github_token" tok st.config)
    (true, { config := cfg, persisted := cfg }, [.ghUser tok])
  else
    let r := setup_github_connection env st
    (r.1, r.2.1, .ghUser tok :: r.2.2)

/-- `main.py:767-779` `complete_authentication`: record the session, then the
GitHub connection (magic-link path, no session data for extraction). -/
def complete_authentication (env : AuthEnv) (email session_token : String)
    (st : AuthSt) : Bool × AuthSt × List AuthEv :=
  let st :=
    { st with
      config := setKV "user_email" email (setKV "descope_session_token" session_token st.config) }
  setup_github_connection env st

/-- `main.py:677-695` `complete_authentication_with_session`: record the
session, extract a GitHub token from the session data, and use it when
truthy; a non-string token makes the `Github(...)` constructor raise before
any API call, yielding a clean failure. -/
def complete_authentication_with_session (env : AuthEnv) (email session_token : String)
    (user_info : Option UserInfo) (full : FullResponse) (st : AuthSt) :
    Bool × AuthSt × List AuthEv :=
  let st :=
    { st with
      config := setKV "user_email" email (setKV "descope_session_token" session_token st.config) }
  match extract_github_token_from_session (some full) user_info with
  | some v =>
    if v.truthy then
      match v with
      | .str t => setup_github_with_token env t st
      | .dict _ => (false, st, [])
    else setup_github_connection env st
  | none => setup_github_connection env st

/-- `main.py:615-639` `authenticate_magic_link`. -/
def authenticate_magic_link (env : AuthEnv) (email : String) (st : AuthSt) :
    Bool × AuthSt × List AuthEv :=
  if !env.magicSendOk then (false, st, [.magicSend])
  else
    let tok := pyStrip env.magicTokenInput
    if tok = "" then (false, st, [.magicSend])
    else
      let r := complete_authentication env email tok st
      (r.1, r.2.1, .magicSend :: r.2.2)

/-- `main.py:641-675` `authenticate_otp`. -/
def authenticate_otp (env : AuthEnv) (email : String) (st : AuthSt) :
    Bool × AuthSt × List AuthEv :=
  if !env.otpSendOk then (false, st, [.otpSend])
  else
    let code := pyStrip env.otpCodeInput
    if code = "" then (false, st, [.otpSend])
    else if !env.otpVerifyOk then (false, st, [.otpSend, .otpVerify])
    else
      match env.otpVerifyResp.session_jwt with
      | some jwt =>
        if jwt = "" then (false, st, [.otpSend, .otpVerify])
        else
          let r := complete_authentication_with_session env email jwt
            env.otpVerifyResp.user env.otpVerifyResp st
          (r.1, r.2.1, .otpSend :: .otpVerify :: r.2.2)
      | none => (false, st, [.otpSend, .otpVerify])

/-- `main.py:579-613` `authenticate_descope`: short-circuit on an
uninitialized client; fast path through the persisted session; otherwise the
interactive method choice. -/
def authenticate_descope (env : AuthEnv) (email : Option String) (force : Bool) :
    Bool × AuthSt × List AuthEv :=
  let st : AuthSt := { config := env.config, persisted := env.config }
  if !env.descopeInit then (false, st, [])
  else if !force && (lookupKV "descope_session_token" st.config).isSome &&
      (lookupKV "user_email" st.config).isSome then
    setup_github_connection env st
  else
    let email :=
      match email with
      | some e => if e = "" then env.emailInput else e
      | none => env.emailInput
    let choice := pyStrip env.choiceInput
    if choice = "1" then authenticate_magic_link env email st
    else if choice = "2" then authenticate_otp env email st
    else (false, st, [])

/-! ## commit_and_push -/

/-- Git invocations observable from `commit_and_push`. -/
inductive GitEv where
  | add
  | diffCheck
  | commit (msg : String)
  | revParse
  | push (remote branch : String)
deriving DecidableEq

/-- Environment of `commit_and_push`: outcome of each git subprocess. -/
structure GitEnv where
  /-- Whether `git add .` succeeds. -/
  addOk : Bool
  /-- Whether `git diff --staged --quiet` exits 0 (nothing staged). -/
  stagedClean : Bool
  /-- Whether `git commit -m` succeeds. -/
  commitOk : Bool
  /-- Whether `git rev-parse --abbrev-ref HEAD` succeeds. -/
  revParseOk : Bool
  /-- The checked-out branch reported by `rev-parse`. -/
  currentBranch : String
  /-- Whether `git push` succeeds. -/
  pushOk : Bool

/-- `main.py:870-894` `commit_and_push`: add, staged check, commit, two
`rev-parse` calls (duplicated in the source), then push to the *current*
branch; the `branch` parameter is only reassigned afterwards. -/
def commit_and_push (env : GitEnv) (message branch : String) : Bool × List GitEv :=
  if !env.addOk then (false, [.add])
  else if env.stagedClean then (true, [.add, .diffCheck])
  else if !env.commitOk then (false, [.add, .diffCheck, .commit message])
  else if !env.revParseOk then (false, [.add, .diffCheck, .commit message, .revParse])
  else if !env.pushOk then
    (false, [.add, .diffCheck, .commit message, .revParse, .revParse,
      .push "origin" env.currentBranch])
  else
    (true, [.add, .diffCheck, .commit message, .revParse, .revParse,
      .push "origin" env.currentBranch])

/-! ## Cascade call ranks and bounding traces -/

/-- Position of each call kind in the cascade: Hugging Face serverless
models, then the local Ollama service, then OpenAI. -/
def evRank : GenEv → Nat
  | .hfQuery _ => 0
  | .hfWait _ => 0
  | .ollamaTags => 1
  | .ollamaGen _ => 1
  | .openaiCall => 2

/-! ## Concrete environments used by witnesses and counterexamples -/

/-- A fully offline generation environment. -/
def offEnv0 : GenEnv :=
  { connectivityOk := true, hfToken := none, hfResp := fun _ => .timeout,
    ollamaRunning := false, ollamaModels := [], preferredModel := "llama3.2:1b",
    ollamaGenResp := none, openaiReady := false, openaiResp := none }

/-- Environment where the first HF model immediately returns a message. -/
def envRemoteFirst : GenEnv :=
  { offEnv0 with
    hfToken := some "t",
    hfResp := fun m => if m = "microsoft/DialoGPT-small" then .ok "feat: remote" else .timeout,
    ollamaRunning := true }

/-- Environment where the first HF model answers 503 and would answer a valid
message if it were retried; every other model times out. -/
def env503 : GenEnv :=
  { offEnv0 with
    hfToken := some "t",
    hfResp := fun m => if m = "microsoft/DialoGPT-small" then .status503 else .timeout }

/-- Environment where the first HF model returns a colon line that is not a
conventional commit message. -/
def envColonLine : GenEnv :=
  { offEnv0 with
    hfToken := some "t",
    hfResp := fun m => if m = "microsoft/DialoGPT-small" then .ok "note: stuff" else .timeout }

/-- The example diff of spec §8. -/
def diff8 : String := "+import requests\n+def send():\n    pass"

/-- Auth environment with a fully persisted, still-valid credential. -/
def aenvFast : AuthEnv :=
  { descopeInit := true,
    config := [("descope_session_token", "sess"), ("user_email", "e@x"),
               ("github_token", "ghtok"), ("github_username", "user1")],
    ghValid := fun t => t == "ghtok",
    ghLogin := fun _ => "user1",
    emailInput := "", choiceInput := "", magicSendOk := false, magicTokenInput := "",
    otpSendOk := false, otpCodeInput := "", otpVerifyOk := false,
    otpVerifyResp := ⟨none, [], none⟩, manualTokenInput := "" }

/-- Auth environment whose persisted hosting token is rejected and where the
user types a fresh valid token. -/
def aenvStale : AuthEnv :=
  { aenvFast with
    ghValid := fun t => t == "fresh",
    ghLogin := fun _ => "freshuser",
    manualTokenInput := " fresh " }

/-- Auth environment whose identity-provider client failed to initialize. -/
def aenvNoClient : AuthEnv := { aenvFast with descopeInit := false }

/-- A git environment with pending changes on branch `develop`. -/
def genvDevelop : GitEnv :=
  { addOk := true, stagedClean := false, commitOk := true,
    revParseOk := true, currentBranch := "develop", pushOk := true }

/-- User info carrying both a custom-attribute `github_token` and a federated
OAuth github access token. -/
def uiBoth : UserInfo :=
  ⟨[("github_token", .str "tokA")], [("github", .dict [("access_token", .str "tokB")])]⟩

/-- Upper-bound trace of the HF serverless loop: one query and one wait slot
per model. -/
def hfBigTrace : List String → List GenEv
  | [] => []
  | m :: ms => .hfQuery m :: .hfWait 5 :: hfBigTrace ms

/-- Environment where the three HF models answer 503, 401 and 429. -/
def envStatuses : GenEnv :=
  { offEnv0 with
    hfToken := some "t",
    hfResp := fun m =>
      if m = "microsoft/DialoGPT-small" then .status503
      else if m = "gpt2" then .status401 else .status429 }

/-! ## Basic facts about the string primitives -/

theorem pySlice_length_le (n : Nat) (s : String) : (pySlice n s).length ≤ n := by
  simp only [pySlice, String.length]
  exact (List.length_take n s.data).le.trans (min_le_left _ _)

theorem string_ne_empty_of_data_ne_nil {s : String} (h : s.data ≠ []) : s ≠ "" := by
  intro hs
  exact h (by simpa using congrArg String.data hs)

theorem data_ne_nil_of_string_ne_empty {s : String} (h : s ≠ "") : s.data ≠ [] := by
  intro hd
  exact h (by cases s; simp_all)

theorem pySlice_ne_empty {n : Nat} {s : String} (hn : 0 < n) (hs : s ≠ "") :
    pySlice n s ≠ "" := by
  apply string_ne_empty_of_data_ne_nil
  simp only [pySlice]
  intro h
  rcases List.take_eq_nil_iff.mp h with h' | h'
  · omega
  · exact data_ne_nil_of_string_ne_empty hs h'

theorem string_length_data (s : String) : s.length = s.data.length := rfl

theorem pyLower_length (s : String) : (pyLower s).length = s.length := by
  simp only [pyLower, string_length_data]
  exact List.length_map _ _

theorem string_append_length (s t : String) : (s ++ t).length = s.length + t.length := by
  simp only [string_length_data, String.append]
  exact List.length_append _ _

theorem string_length_pos_ne_empty {s : String} (h : 0 < s.length) : s ≠ "" := by
  apply string_ne_empty_of_data_ne_nil
  intro hd
  rw [string_length_data, hd] at h
  simp at h

/-! ## Config-map lemmas -/

theorem lookupKV_setKV_self (k v : String) (l : List (String × String)) :
    lookupKV k (setKV k v l) = some v := by
  induction l with
  | nil => simp [setKV, lookupKV]
  | cons p rest ih =>
    by_cases h : p.1 = k
    · simp [setKV, lookupKV, h]
    · simp only [setKV, h, if_false, lookupKV, ih]

theorem lookupKV_setKV_other {k k' : String} (hne : k ≠ k') (v : String)
    (l : List (String × String)) : lookupKV k (setKV k' v l) = lookupKV k l := by
  have hk : ¬(k' = k) := fun h => hne h.symm
  induction l with
  | nil => simp only [setKV, lookupKV, if_neg hk]
  | cons p rest ih =>
    by_cases h : p.1 = k'
    · have hpk : ¬(p.1 = k) := fun hh => hne (h.symm.trans hh).symm
      simp only [setKV, if_pos h, lookupKV, if_neg hk, if_neg hpk]
    · simp only [setKV, if_neg h, lookupKV, ih]

/-! ## Validity lemmas for the generation cascade -/

theorem emPassOne_valid : ∀ (ls : List String) (s : String),
    emPassOne ls = some s → s ≠ "" ∧ s.length ≤ 72 := by
  intro ls
  induction ls with
  | nil => intro s h; simp [emPassOne] at h
  | cons l ls ih =>
    intro s h
    simp only [emPassOne] at h
    split at h
    · exact ih s h
    · rename_i hne
      split at h
      · injection h with h'
        subst h'
        exact ⟨pySlice_ne_empty (by omega) hne, pySlice_length_le _ _⟩
      · split at h
        · injection h with h'
          subst h'
          exact ⟨pySlice_ne_empty (by omega) hne, pySlice_length_le _ _⟩
        · exact ih s h

theorem emPassTwo_valid : ∀ (ls : List String) (s : String),
    emPassTwo ls = some s → s ≠ "" ∧ s.length ≤ 72 := by
  intro ls
  induction ls with
  | nil => intro s h; simp [emPassTwo] at h
  | cons l ls ih =>
    intro s h
    simp only [emPassTwo] at h
    split at h
    · rename_i hcond
      have ha := ((Bool.and_eq_true _ _).mp ((Bool.and_eq_true _ _).mp hcond).1).1
      have hlen : 10 < (pyStrip l).length := by simpa using of_decide_eq_true ha
      have hne : pyStrip l ≠ "" := string_length_pos_ne_empty (by omega)
      split at h
      · injection h with h'
        subst h'
        refine ⟨pySlice_ne_empty (by omega) ?_, pySlice_length_le _ _⟩
        apply string_length_pos_ne_empty
        rw [string_append_length, pyLower_length]
        have h6 : ("feat: " : String).length = 6 := by decide
        omega
      · injection h with h'
        subst h'
        exact ⟨pySlice_ne_empty (by omega) hne, pySlice_length_le _ _⟩
    · exact ih s h

theorem extract_commit_message_valid (g d s : String)
    (h : extract_commit_message g d = some s) : s ≠ "" ∧ s.length ≤ 72 := by
  simp only [extract_commit_message] at h
  split at h
  · rename_i r hr
    injection h with h'
    subst h'
    exact emPassOne_valid _ _ hr
  · exact emPassTwo_valid _ _ h

theorem ollamaLineScan_le72 : ∀ (ls : List String) (s : String),
    ollamaLineScan ls = some s → s.length ≤ 72 := by
  intro ls
  induction ls with
  | nil => intro s h; simp [ollamaLineScan] at h
  | cons l ls ih =>
    intro s h
    simp only [ollamaLineScan] at h
    split at h
    · split at h
      · rename_i hcond
        injection h with h'
        subst h'
        have := (Bool.and_eq_true _ _).mp hcond
        simpa using of_decide_eq_true this.2
      · split at h
        · rename_i hle h50
          split at h
          · injection h with h'
            subst h'
            rw [string_append_length, pyLower_length]
            have : ("feat: " : String).length = 6 := by decide
            omega
          · injection h with h'
            subst h'
            omega
        · exact ih s h
    · exact ih s h

theorem ollamaExtract_le72 (g s : String) (h : ollamaExtract g = some s) :
    s.length ≤ 72 := by
  simp only [ollamaExtract] at h
  split at h
  · rename_i r hr
    injection h with h'
    subst h'
    exact ollamaLineScan_le72 _ _ hr
  · split at h
    · rename_i hcond
      injection h with h'
      subst h'
      omega
    · exact absurd h (by simp)

theorem try_simple_valid (p : String) :
    ∃ s, try_simple_text_generation p = some s ∧
      s ≠ "" ∧ s.length ≤ 72 ∧ matchesConventional s = true := by
  unfold try_simple_text_generation
  dsimp only
  split
  · exact ⟨_, rfl, by decide, by decide, by decide⟩
  split
  · exact ⟨_, rfl, by decide, by decide, by decide⟩
  split
  · exact ⟨_, rfl, by decide, by decide, by decide⟩
  split
  · exact ⟨_, rfl, by decide, by decide, by decide⟩
  split
  · exact ⟨_, rfl, by decide, by decide, by decide⟩
  split
  · exact ⟨_, rfl, by decide, by decide, by decide⟩
  · exact ⟨_, rfl, by decide, by decide, by decide⟩

theorem try_simple_le72 (p s : String) (h : try_simple_text_generation p = some s) :
    s ≠ "" ∧ s.length ≤ 72 := by
  obtain ⟨s', hs', hne, hle, _⟩ := try_simple_valid p
  rw [hs'] at h
  injection h with h'
  subst h'
  exact ⟨hne, hle⟩

theorem fallbackCommitType_cases (d : String) :
    fallbackCommitType d = "feat" ∨ fallbackCommitType d = "fix" ∨
    fallbackCommitType d = "test" ∨ fallbackCommitType d = "docs" ∨
    fallbackCommitType d = "chore" := by
  unfold fallbackCommitType
  dsimp only
  split
  · exact Or.inl rfl
  · split
    · exact Or.inr (Or.inl rfl)
    · split
      · exact Or.inr (Or.inr (Or.inl rfl))
      · split
        · exact Or.inr (Or.inr (Or.inr (Or.inl rfl)))
        · split
          · exact Or.inr (Or.inr (Or.inr (Or.inr rfl)))
          · exact Or.inr (Or.inr (Or.inr (Or.inr rfl)))

theorem generate_fallback_message_valid (d : String) :
    generate_fallback_message d ≠ "" ∧ (generate_fallback_message d).length ≤ 72 := by
  unfold generate_fallback_message
  dsimp only
  split
  · exact ⟨by decide, by decide⟩
  split
  · exact ⟨by decide, by decide⟩
  split
  · exact ⟨by decide, by decide⟩
  split
  · exact ⟨by decide, by decide⟩
  split
  · rcases fallbackCommitType_cases d with h | h | h | h | h <;> rw [h] <;>
      exact ⟨by decide, by decide⟩
  split
  · rcases fallbackCommitType_cases d with h | h | h | h | h <;> rw [h] <;>
      exact ⟨by decide, by decide⟩
  · rcases fallbackCommitType_cases d with h | h | h | h | h <;> rw [h] <;>
      exact ⟨by decide, by decide⟩

theorem hfLoop_le72 (env : GenEnv) (sp : String) : ∀ (ms : List String) (s : String),
    (hfLoop env sp ms).1 = some s → s.length ≤ 72 := by
  intro ms
  induction ms with
  | nil => intro s h; simp [hfLoop] at h
  | cons m ms ih =>
    intro s h
    simp only [hfLoop] at h
    split at h
    · rename_i g hresp
      split at h
      · rename_i msg hext
        split at h
        · exact ih s h
        · injection h with h'
          rw [← h']
          exact (extract_commit_message_valid _ _ _ hext).2
      · exact ih s h
    all_goals exact ih s h

theorem try_huggingface_serverless_le72 (env : GenEnv) (p s : String)
    (h : (try_huggingface_serverless env p).1 = some s) : s.length ≤ 72 := by
  simp only [try_huggingface_serverless] at h
  split at h
  · simp at h
  · exact hfLoop_le72 env _ _ s h

theorem ollamaGenerate_le72 (env : GenEnv) (model s : String)
    (h : (ollamaGenerate env model).1 = some s) : s.length ≤ 72 := by
  simp only [ollamaGenerate] at h
  split at h
  · simp at h
  · split at h
    · simp at h
    · exact ollamaExtract_le72 _ s h

theorem generate_with_ollama_le72 (env : GenEnv) (p s : String)
    (h : (generate_with_ollama env p).1 = some s) : s.length ≤ 72 := by
  simp only [generate_with_ollama] at h
  split at h
  · simp at h
  · split at h
    · exact ollamaGenerate_le72 env _ s h
    · split at h
      · exact ollamaGenerate_le72 env _ s h
      · simp at h

theorem openaiAttempt_le72 (env : GenEnv) (s : String)
    (h : (openaiAttempt env).1 = some s) : s.length ≤ 72 := by
  simp only [openaiAttempt] at h
  split at h
  · split at h
    · split at h
      · simp at h
      · injection h with h'
        rw [← h']
        exact pySlice_length_le _ _
    · simp at h
  · simp at h

theorem try_alternative_apis_le72 (env : GenEnv) (p s : String)
    (h : (try_alternative_apis env p).1 = some s) : s.length ≤ 72 := by
  simp only [try_alternative_apis] at h
  split at h
  · exact generate_with_ollama_le72 env p s h
  · exact openaiAttempt_le72 env s h

theorem generate_with_huggingface_le72 (env : GenEnv) (d s : String)
    (h : (generate_with_huggingface env d).1 = some s) : s.length ≤ 72 := by
  simp only [generate_with_huggingface] at h
  split at h
  · simp at h
  · split at h
    · exact try_huggingface_serverless_le72 env _ s h
    · split at h
      · exact try_alternative_apis_le72 env _ s h
      · split at h
        · exact (try_simple_le72 _ s h).2
        · simp at h

/-- With every network strategy unreachable, the Hugging Face wrapper returns
exactly the pattern heuristic's message (which always exists). -/
theorem offline_compose (env : GenEnv) (d : String) (hoff : offlineGen env) :
    some (generate_commit_message env d).1 = try_simple_text_generation (mkPrompt d) := by
  obtain ⟨hc, hhf, holl, hopen⟩ := hoff
  obtain ⟨s, hs, hsne, _, _⟩ := try_simple_valid (mkPrompt d)
  have h1 : (try_huggingface_serverless env (mkPrompt d)).1 = none := by
    simp only [try_huggingface_serverless]
    split
    · rfl
    · have hall : ∀ ms, (hfLoop env (mkSimplePrompt (mkPrompt d)) ms).1 = none := by
        intro ms
        induction ms with
        | nil => rfl
        | cons m ms ih => rcases hhf m with h | h <;> simp [hfLoop, h, ih]
      exact hall hfModels
  have h2 : (generate_with_ollama env (mkPrompt d)).1 = none := by
    simp [generate_with_ollama, holl]
  have h3 : (openaiAttempt env).1 = none := by
    simp only [openaiAttempt]
    rcases hopen with h | h
    · simp [h]
    · simp only [h]
      split <;> rfl
  have h4 : (try_alternative_apis env (mkPrompt d)).1 = none := by
    simp only [try_alternative_apis]
    rw [h2]
    simp only [truthyStr, Bool.false_eq_true, if_false]
    exact h3
  have h5 : (generate_with_huggingface env d).1 = some s := by
    simp only [generate_with_huggingface, hc, Bool.not_true, Bool.false_eq_true, if_false]
    rw [h1]
    simp only [truthyStr, Bool.false_eq_true, if_false]
    rw [h4]
    simp only [truthyStr, Bool.false_eq_true, if_false]
    rw [hs]
    simp [truthyStr, hsne]
  rcases hg : generate_with_huggingface env d with ⟨r, t⟩
  rw [hg] at h5
  simp only at h5
  subst h5
  simp [generate_commit_message, hg, hsne, hs]

/-! ## Claim C4 -/

/-- C4: with a persisted credential (identity session token, identity email,
hosting token and username) whose hosting token the hosting API validates,
`authenticate_descope` with `force = False` succeeds, calling only the
hosting API — zero identity-provider calls. -/
theorem c4_fast_path_zero_identity_calls (env : AuthEnv) (em : Option String)
    (hInit : env.descopeInit = true)
    (hs : (lookupKV "descope_session_token" env.config).isSome = true)
    (he : (lookupKV "user_email" env.config).isSome = true)
    (gt gu : String)
    (hgt : lookupKV "github_token" env.config = some gt)
    (hgu : lookupKV "github_username" env.config = some gu)
    (hvalid : env.ghValid gt = true) :
    authenticate_descope env em false =
      (true, ⟨env.config, env.config⟩, [AuthEv.ghUser gt]) ∧
    ([AuthEv.ghUser gt].filter isIdentityProviderCall) = [] := by
  constructor
  · simp [authenticate_descope, hInit, hs, he, setup_github_connection, hgt, hgu, hvalid]
  · simp [isIdentityProviderCall]

/-- Witness for C4 at a concrete persisted credential. -/
theorem c4_fast_path_zero_identity_calls_witness :
    authenticate_descope aenvFast none false =
      (true, ⟨aenvFast.config, aenvFast.config⟩, [AuthEv.ghUser "ghtok"]) ∧
    ([AuthEv.ghUser "ghtok"].filter isIdentityProviderCall) = [] :=
  c4_fast_path_zero_identity_calls aenvFast none rfl rfl rfl "ghtok" "user1" rfl rfl rfl

/-! ## Claim C7 -/

/-- C7: when the persisted hosting token is rejected, the flow falls through
to manual entry; a fresh valid token updates exactly the `github_token` and
`github_username` fields of the persisted configuration, leaving the identity
session token and email (and every other key) unchanged. -/
theorem c7_manual_reentry_updates_only_hosting_fields (env : AuthEnv)
    (hInit : env.descopeInit = true)
    (s e gt gu t : String)
    (hs : lookupKV "descope_session_token" env.config = some s)
    (he : lookupKV "user_email" env.config = some e)
    (hgt : lookupKV "github_token" env.config = some gt)
    (hgu : lookupKV "github_username" env.config = some gu)
    (hbad : env.ghValid gt = false)
    (ht : pyStrip env.manualTokenInput = t)
    (htne : ¬(t = ""))
    (hfresh : env.ghValid t = true) :
    (authenticate_descope env none false).1 = true ∧
    lookupKV "github_token" (authenticate_descope env none false).2.1.persisted = some t ∧
    lookupKV "github_username" (authenticate_descope env none false).2.1.persisted
      = some (env.ghLogin t) ∧
    ∀ k, k ≠ "github_token" → k ≠ "github_username" →
      lookupKV k (authenticate_descope env none false).2.1.persisted
        = lookupKV k env.config := by
  have hr : authenticate_descope env none false =
      (true,
       ⟨setKV "github_username" (env.ghLogin t) (setKV "github_token" t env.config),
        setKV "github_username" (env.ghLogin t) (setKV "github_token" t env.config)⟩,
       [.ghUser gt, .ghUser t]) := by
    simp [authenticate_descope, hInit, hs, he, setup_github_connection, hgt, hgu, hbad,
      manualGithubEntry, ht, htne, hfresh]
  rw [hr]
  refine ⟨rfl, ?_, ?_, ?_⟩
  · rw [lookupKV_setKV_other (by decide), lookupKV_setKV_self]
  · rw [lookupKV_setKV_self]
  · intro k hk1 hk2
    rw [lookupKV_setKV_other hk2, lookupKV_setKV_other hk1]

/-- Witness for C7 at a concrete stale credential. -/
theorem c7_manual_reentry_updates_only_hosting_fields_witness :
    (authenticate_descope aenvStale none false).1 = true ∧
    lookupKV "github_token" (authenticate_descope aenvStale none false).2.1.persisted
      = some "fresh" ∧
    lookupKV "descope_session_token"
        (authenticate_descope aenvStale none false).2.1.persisted
      = lookupKV "descope_session_token" aenvStale.config := by
  have h := c7_manual_reentry_updates_only_hosting_fields aenvStale rfl
    "sess" "e@x" "ghtok" "user1" "fresh" rfl rfl rfl rfl rfl rfl (by decide) rfl
  exact ⟨h.1, h.2.1, h.2.2.2 "descope_session_token" (by decide) (by decide)⟩

/-! ## Claim C9 -/

/-- C9: if the identity-provider client was not initialized,
`authenticate_descope` returns a clean failure for every email/force
combination, with no external calls and no state change. -/
theorem c9_uninitialized_client_clean_failure (env : AuthEnv)
    (email : Option String) (force : Bool) (h : env.descopeInit = false) :
    authenticate_descope env email force =
      (false, ⟨env.config, env.config⟩, []) := by
  simp [authenticate_descope, h]

/-- Witness for C9 at a concrete environment. -/
theorem c9_uninitialized_client_clean_failure_witness :
    authenticate_descope aenvNoClient (some "e@x") true =
      (false, ⟨aenvNoClient.config, aenvNoClient.config⟩, []) :=
  c9_uninitialized_client_clean_failure aenvNoClient (some "e@x") true rfl

/-! ## Claim C10 -/

/-- C10: `commit_and_push` only ever pushes to the branch reported by
`git rev-parse --abbrev-ref HEAD`, and the `branch` parameter has no effect
on its behaviour. -/
theorem c10_push_targets_current_branch (env : GitEnv) (m b : String) :
    (∀ b2, commit_and_push env m b = commit_and_push env m b2) ∧
    (∀ r br, GitEv.push r br ∈ (commit_and_push env m b).2 →
      r = "origin" ∧ br = env.currentBranch) := by
  constructor
  · intro b2; rfl
  · intro r br hmem
    unfold commit_and_push at hmem
    split at hmem <;> simp_all
    split at hmem <;> simp_all
    split at hmem <;> simp_all
    split at hmem <;> simp_all
    split at hmem <;> simp_all

/-- Witness for C10 at a concrete environment on branch `develop`. -/
theorem c10_push_targets_current_branch_witness :
    commit_and_push genvDevelop "msg" "feature" = commit_and_push genvDevelop "msg" "main" ∧
    ("origin" = "origin" ∧ "develop" = genvDevelop.currentBranch) :=
  ⟨(c10_push_targets_current_branch genvDevelop "msg" "feature").1 "main",
   (c10_push_targets_current_branch genvDevelop "msg" "feature").2 "origin" "develop"
     (by decide)⟩

/-! ## Claim C1 -/

/-- C1 counterexample: a model answer `"note: stuff"` (HTTP 200 from the
first HF model) is returned verbatim by `generate_commit_message` even though
it does not match `^(feat|fix|docs|style|refactor|test|chore): .+$`. -/
theorem c1_counterexample_colon_line :
    (generate_commit_message envColonLine "x").1 = "note: stuff" ∧
    matchesConventional "note: stuff" = false := by
  exact ⟨by decide, by decide⟩

/-- C1 (amended): `generate_commit_message` always returns a non-empty string
of at most 72 characters, and whenever every model strategy is unreachable
the result additionally matches the conventional-commit pattern; a
model-produced colon line can violate the pattern. -/
theorem c1_compose_nonempty_bounded (env : GenEnv) (diff : String) :
    (generate_commit_message env diff).1 ≠ "" ∧
    (generate_commit_message env diff).1.length ≤ 72 ∧
    (offlineGen env → matchesConventional (generate_commit_message env diff).1 = true) := by
  have hmain : (generate_commit_message env diff).1 ≠ "" ∧
      (generate_commit_message env diff).1.length ≤ 72 := by
    rcases hg : generate_with_huggingface env diff with ⟨r, t⟩
    rcases r with _ | msg
    · simp only [generate_commit_message, hg]
      exact generate_fallback_message_valid diff
    · by_cases hmsg : msg = ""
      · simp only [generate_commit_message, hg]
        rw [if_pos hmsg]
        exact generate_fallback_message_valid diff
      · simp only [generate_commit_message, hg]
        rw [if_neg hmsg]
        exact ⟨hmsg, generate_with_huggingface_le72 env diff msg (by simp [hg])⟩
  refine ⟨hmain.1, hmain.2, fun hoff => ?_⟩
  obtain ⟨s, hs, _, _, hconv⟩ := try_simple_valid (mkPrompt diff)
  have h := offline_compose env diff hoff
  rw [hs] at h
  rw [Option.some.inj h]
  exact hconv

/-- Witness for C1 (amended) at a concrete offline environment. -/
theorem c1_compose_nonempty_bounded_witness :
    (generate_commit_message offEnv0 "w").1 ≠ "" ∧
    (generate_commit_message offEnv0 "w").1.length ≤ 72 ∧
    matchesConventional (generate_commit_message offEnv0 "w").1 = true := by
  have h := c1_compose_nonempty_bounded offEnv0 "w"
  exact ⟨h.1, h.2.1, h.2.2 ⟨rfl, fun _ => Or.inl rfl, rfl, Or.inl rfl⟩⟩

/-! ## Claim C2 -/

/-- C2 counterexample: with every network strategy unreachable, `compose` on
the empty diff returns the pattern heuristic's `"chore: update code"`, not
`generate_fallback_message`'s `"chore: update and improve codebase"`. -/
theorem c2_counterexample_offline_not_fallback :
    (generate_commit_message offEnv0 "").1 ≠ generate_fallback_message "" := by
  decide

/-- C2 (amended): with every network strategy unreachable, `compose` returns
the pattern-heuristic strategy's output on the wrapped prompt — the
deterministic fallback is not reached, because the pattern heuristic always
succeeds first. -/
theorem c2_offline_equals_pattern_heuristic (env : GenEnv) (diff : String)
    (hoff : offlineGen env) :
    some (generate_commit_message env diff).1 =
      try_simple_text_generation (mkPrompt diff) :=
  offline_compose env diff hoff

/-- Witness for C2 (amended) on a concrete offline environment. -/
theorem c2_offline_equals_pattern_heuristic_witness :
    some (generate_commit_message offEnv0 "x").1 =
      try_simple_text_generation (mkPrompt "x") :=
  c2_offline_equals_pattern_heuristic offEnv0 "x" ⟨rfl, fun _ => Or.inl rfl, rfl, Or.inl rfl⟩

/-! ## Claim C8 -/

/-- C8 counterexample: on the §8 example diff with no network strategies
available, `generate_commit_message` does not return
`"feat: add new features and functionality"`. -/
theorem c8_counterexample_example_diff :
    (generate_commit_message offEnv0 diff8).1 ≠
      "feat: add new features and functionality" := by
  decide

/-- C8 (amended): on the §8 example diff with no network strategies
available, `generate_commit_message` returns the pattern heuristic's
`"feat: add new functionality"`; the expected string
`"feat: add new features and functionality"` is what the (unreached)
deterministic fallback would produce. -/
theorem c8_example_diff_pattern_heuristic (env : GenEnv) (hoff : offlineGen env) :
    (generate_commit_message env diff8).1 = "feat: add new functionality" ∧
    generate_fallback_message diff8 = "feat: add new features and functionality" := by
  have h1 := offline_compose env diff8 hoff
  have h2 : try_simple_text_generation (mkPrompt diff8) =
      some "feat: add new functionality" := by decide
  rw [h2] at h1
  exact ⟨Option.some.inj h1.symm |>.symm, by decide⟩

/-- Witness for C8 (amended) at a concrete offline environment. -/
theorem c8_example_diff_pattern_heuristic_witness :
    (generate_commit_message offEnv0 diff8).1 = "feat: add new functionality" ∧
    generate_fallback_message diff8 = "feat: add new features and functionality" :=
  c8_example_diff_pattern_heuristic offEnv0 ⟨rfl, fun _ => Or.inl rfl, rfl, Or.inl rfl⟩

/-! ## Claim C5 -/

theorem pairwise_rank_of_uniform {l : List GenEv} {k : Nat}
    (h : ∀ e ∈ l, evRank e = k) :
    l.Pairwise (fun a b => evRank a ≤ evRank b) := by
  induction l with
  | nil => exact List.Pairwise.nil
  | cons e l ih =>
    refine List.Pairwise.cons (fun b hb => ?_) (ih (fun b hb => h b (List.mem_cons_of_mem e hb)))
    rw [h e (List.mem_cons_self e l), h b (List.mem_cons_of_mem e hb)]

theorem hfLoop_rank (env : GenEnv) (sp : String) : ∀ (ms : List String),
    ∀ e ∈ (hfLoop env sp ms).2, evRank e = 0 := by
  intro ms
  induction ms with
  | nil => intro e he; simp [hfLoop] at he
  | cons m ms ih =>
    intro e he
    simp only [hfLoop] at he
    split at he
    · split at he
      · split at he
        · rcases List.mem_cons.mp he with h | h
          · rw [h]; rfl
          · exact ih e h
        · rcases List.mem_cons.mp he with h | h
          · rw [h]; rfl
          · simp at h
      · rcases List.mem_cons.mp he with h | h
        · rw [h]; rfl
        · exact ih e h
    all_goals
      first
      | (rcases List.mem_cons.mp he with h | h
         · rw [h]; rfl
         · rcases List.mem_cons.mp h with h' | h'
           · rw [h']; rfl
           · exact ih e h')
      | (rcases List.mem_cons.mp he with h | h
         · rw [h]; rfl
         · exact ih e h)

theorem try_huggingface_serverless_rank (env : GenEnv) (p : String) :
    ∀ e ∈ (try_huggingface_serverless env p).2, evRank e = 0 := by
  intro e he
  simp only [try_huggingface_serverless] at he
  split at he
  · simp at he
  · exact hfLoop_rank env _ hfModels e he

theorem ollamaGenerate_rank (env : GenEnv) (m : String) :
    ∀ e ∈ (ollamaGenerate env m).2, evRank e = 1 := by
  intro e he
  simp only [ollamaGenerate] at he
  split at he <;> try split at he
  all_goals
    rcases List.mem_cons.mp he with h | h
    · rw [h]; rfl
    · rcases List.mem_cons.mp h with h' | h'
      · rw [h']; rfl
      · rcases List.mem_cons.mp h' with h'' | h''
        · rw [h'']; rfl
        · simp at h''

theorem generate_with_ollama_rank (env : GenEnv) (p : String) :
    ∀ e ∈ (generate_with_ollama env p).2, evRank e = 1 := by
  intro e he
  simp only [generate_with_ollama] at he
  split at he
  · rcases List.mem_cons.mp he with h | h
    · rw [h]; rfl
    · simp at h
  · split at he
    · exact ollamaGenerate_rank env _ e he
    · split at he
      · exact ollamaGenerate_rank env _ e he
      · rcases List.mem_cons.mp he with h | h
        · rw [h]; rfl
        · rcases List.mem_cons.mp h with h' | h'
          · rw [h']; rfl
          · simp at h'

theorem openaiAttempt_rank (env : GenEnv) :
    ∀ e ∈ (openaiAttempt env).2, evRank e = 2 := by
  intro e he
  simp only [openaiAttempt] at he
  split at he
  · split at he <;> try split at he
    all_goals
      rcases List.mem_cons.mp he with h | h
      · rw [h]; rfl
      · simp at h
  · simp at he

theorem try_alternative_apis_sorted (env : GenEnv) (p : String) :
    ((try_alternative_apis env p).2).Pairwise (fun a b => evRank a ≤ evRank b) ∧
    ∀ e ∈ (try_alternative_apis env p).2, 1 ≤ evRank e := by
  simp only [try_alternative_apis]
  split
  · exact ⟨pairwise_rank_of_uniform (generate_with_ollama_rank env p),
      fun e he => (generate_with_ollama_rank env p e he).ge⟩
  · constructor
    · refine List.pairwise_append.mpr
        ⟨pairwise_rank_of_uniform (generate_with_ollama_rank env p),
         pairwise_rank_of_uniform (openaiAttempt_rank env), fun a ha b hb => ?_⟩
      rw [generate_with_ollama_rank env p a ha, openaiAttempt_rank env b hb]
      omega
    · intro e he
      rcases List.mem_append.mp he with h | h
      · exact (generate_with_ollama_rank env p e h).ge
      · rw [openaiAttempt_rank env e h]
        omega

/-- C5 counterexample: with an HF token present and the first remote model
answering, `generate_commit_message` performs one remote hosted-model call
and never contacts the local model service. -/
theorem c5_counterexample_remote_before_local :
    generate_commit_message envRemoteFirst "d" =
      ("feat: remote", [GenEv.hfQuery "microsoft/DialoGPT-small"]) ∧
    GenEv.ollamaTags ∉ [GenEv.hfQuery "microsoft/DialoGPT-small"] := by
  exact ⟨by decide, by decide⟩

/-- C5 (amended): the cascade's outbound calls are ordered Hugging Face
serverless (remote) first, then the local Ollama service, then OpenAI — the
local service is tried before OpenAI but after the HF remote models. -/
theorem c5_cascade_call_order (env : GenEnv) (d : String) :
    ((generate_commit_message env d).2).Pairwise (fun a b => evRank a ≤ evRank b) := by
  have hmain : ((generate_with_huggingface env d).2).Pairwise
      (fun a b => evRank a ≤ evRank b) := by
    simp only [generate_with_huggingface]
    split
    · exact List.Pairwise.nil
    · split
      · exact pairwise_rank_of_uniform (try_huggingface_serverless_rank env _)
      · have happ : ((try_huggingface_serverless env (mkPrompt d)).2 ++
            (try_alternative_apis env (mkPrompt d)).2).Pairwise
            (fun a b => evRank a ≤ evRank b) := by
          refine List.pairwise_append.mpr
            ⟨pairwise_rank_of_uniform (try_huggingface_serverless_rank env _),
             (try_alternative_apis_sorted env _).1, fun a ha b hb => ?_⟩
          rw [try_huggingface_serverless_rank env _ a ha]
          exact Nat.zero_le _
        split
        · exact happ
        · split
          · exact happ
          · exact happ
  rcases hg : generate_with_huggingface env d with ⟨r, t⟩
  rw [hg] at hmain
  rcases r with _ | msg
  · simpa [generate_commit_message, hg] using hmain
  · by_cases hmsg : msg = ""
    · simp only [generate_commit_message, hg]
      rw [if_pos hmsg]
      exact hmain
    · simp only [generate_commit_message, hg]
      rw [if_neg hmsg]
      exact hmain

/-! ## Claim C6 -/

theorem hfLoop_sublist (env : GenEnv) (sp : String) : ∀ (ms : List String),
    (hfLoop env sp ms).2.Sublist (hfBigTrace ms) := by
  intro ms
  induction ms with
  | nil => simp [hfLoop, hfBigTrace]
  | cons m ms ih =>
    simp only [hfLoop, hfBigTrace]
    split
    · split
      · split
        · exact (List.sublist_cons_of_sublist _ ih).cons₂ _
        · exact (List.nil_sublist _).cons₂ _
      · exact (List.sublist_cons_of_sublist _ ih).cons₂ _
    · exact (List.sublist_cons_of_sublist _ ih).cons₂ _
    · exact (ih.cons₂ _).cons₂ _
    all_goals exact (List.sublist_cons_of_sublist _ ih).cons₂ _

theorem hfBigTrace_count (m : String) : ∀ (ms : List String),
    (hfBigTrace ms).count (GenEv.hfQuery m) = ms.count m := by
  intro ms
  induction ms with
  | nil => rfl
  | cons m' ms ih =>
    simp only [hfBigTrace, List.count_cons, ih]
    by_cases h : m' = m <;> simp [h]

theorem hfModels_count_le_one (m : String) : hfModels.count m ≤ 1 := by
  by_cases h1 : m = "microsoft/DialoGPT-small" <;>
    by_cases h2 : m = "gpt2" <;>
    by_cases h3 : m = "distilgpt2" <;>
    simp_all [hfModels, List.count_cons]

/-- C6 counterexample: when the first model answers 503, it is *not* retried
— the loop waits 5 seconds and moves to the next model, so the 503 model is
queried exactly once. -/
theorem c6_counterexample_no_retry_on_503 :
    try_huggingface_serverless env503 "p" =
      (none, [.hfQuery "microsoft/DialoGPT-small", .hfWait 5, .hfQuery "gpt2",
              .hfQuery "distilgpt2"]) ∧
    ([GenEv.hfQuery "microsoft/DialoGPT-small", GenEv.hfWait 5,
      GenEv.hfQuery "gpt2", GenEv.hfQuery "distilgpt2"].count
        (GenEv.hfQuery "microsoft/DialoGPT-small")) = 1 := by
  exact ⟨by decide, by decide⟩

/-- C6 (amended): a 503 response causes a single bounded (5 s) wait and then
the *next* model in the fixed list is tried — the same model is never
retried; 401 and 429 responses move to the next model without waiting. In
general no model is ever queried more than once per cascade run. -/
theorem c6_model_loading_wait_next_model :
    (∀ (env : GenEnv) (sp tok : String), env.hfToken = some tok →
      env.hfResp "microsoft/DialoGPT-small" = HFResp.status503 →
      env.hfResp "gpt2" = HFResp.status401 →
      env.hfResp "distilgpt2" = HFResp.status429 →
      try_huggingface_serverless env sp =
        (none, [.hfQuery "microsoft/DialoGPT-small", .hfWait 5, .hfQuery "gpt2",
                .hfQuery "distilgpt2"])) ∧
    (∀ (env : GenEnv) (sp m : String),
      ((try_huggingface_serverless env sp).2.count (GenEv.hfQuery m)) ≤ 1) := by
  constructor
  · intro env sp tok htok h1 h2 h3
    simp [try_huggingface_serverless, htok, hfModels, hfLoop, h1, h2, h3]
  · intro env sp m
    simp only [try_huggingface_serverless]
    split
    · simp
    · calc ((hfLoop env (mkSimplePrompt sp) hfModels).2.count (GenEv.hfQuery m))
          ≤ (hfBigTrace hfModels).count (GenEv.hfQuery m) :=
            (hfLoop_sublist env _ hfModels).count_le _
        _ = hfModels.count m := hfBigTrace_count m hfModels
        _ ≤ 1 := hfModels_count_le_one m

/-- Witness for C6 (amended) at a concrete environment with 503/401/429
answers. -/
theorem c6_model_loading_wait_next_model_witness :
    try_huggingface_serverless envStatuses "q" =
      (none, [.hfQuery "microsoft/DialoGPT-small", .hfWait 5, .hfQuery "gpt2",
              .hfQuery "distilgpt2"]) ∧
    ((try_huggingface_serverless envStatuses "q").2.count
      (GenEv.hfQuery "gpt2")) ≤ 1 :=
  ⟨c6_model_loading_wait_next_model.1 envStatuses "q" "t" rfl rfl rfl rfl,
   c6_model_loading_wait_next_model.2 envStatuses "q" "gpt2"⟩

/-! ## Claim C3 -/

/-- C3 counterexample: with both a custom-attribute `github_token`
(`"tokA"`) and a federated OAuth github `access_token` (`"tokB"`),
`extract_github_token_from_session` returns the OAuth value, not the custom
attribute: the OAuth loop overwrites the earlier find. -/
theorem c3_counterexample_oauth_overwrites :
    extract_github_token_from_session none (some uiBoth) = some (DVal.str "tokB") ∧
    extract_github_token_from_session none (some uiBoth) ≠ some (DVal.str "tokA") := by
  refine ⟨rfl, fun h => ?_⟩
  have h1 : extract_github_token_from_session none (some uiBoth)
      = some (DVal.str "tokB") := rfl
  have h2 : DVal.str "tokB" = DVal.str "tokA" := Option.some.inj (h1.symm.trans h)
  exact absurd (DVal.str.inj h2) (by decide)

/-- C3 (amended): when the user object carries both a custom-attribute
`github_token` and a federated OAuth `github` entry with a non-empty
`access_token`, the extractor returns the *OAuth* access token (the last
inspection wins), for every full response. -/
theorem c3_oauth_token_wins (ca : List (String × DVal)) (v : DVal) (t : String)
    (fr : Option FullResponse)
    (hca : dlookup "github_token" ca = some v)
    (hcane : ca.isEmpty = false)
    (ht : ¬(t = "")) :
    extract_github_token_from_session fr
      (some ⟨ca, [("github", DVal.dict [("access_token", DVal.str t)])]⟩) =
      some (DVal.str t) := by
  have htruthy : optTruthy (some (DVal.str t)) = true := by
    simp [optTruthy, DVal.truthy, ht]
  have hstep1 : customAttrToken ⟨ca, [("github", DVal.dict [("access_token", DVal.str t)])]⟩
      = some (some v) := by
    simp [customAttrToken, hcane, hca]
  have hscan : oauthScan [("github", DVal.dict [("access_token", DVal.str t)])] (some v)
      = some (DVal.str t) := by
    simp only [oauthScan, List.foldl]
    rw [if_pos (by decide : pyLower "github" = "github")]
    simp [dlookup]
  simp only [extract_github_token_from_session, hstep1]
  simp only [List.isEmpty_cons, Bool.not_false, if_true, hscan]
  rcases fr with _ | fr'
  · simp [htruthy]
  · simp [fullResponseScan, htruthy]

/-- Witness for C3 (amended) at concrete session data. -/
theorem c3_oauth_token_wins_witness :
    extract_github_token_from_session (some ⟨none, [], none⟩)
      (some ⟨[("github_token", DVal.str "x")],
             [("github", DVal.dict [("access_token", DVal.str "tokC")])]⟩) =
      some (DVal.str "tokC") :=
  c3_oauth_token_wins [("github_token", DVal.str "x")] (DVal.str "x") "tokC"
    (some ⟨none, [], none⟩) rfl rfl (by decide)

end Adi
